import Mathlib

/-!
Verification of the provider abstraction layer in provider.py.

The file shallowly embeds the three provider classes (GeminiProvider,
VertexAIProvider, OpenAIProvider). Vendor SDK effects are modelled as
explicit oracle arguments (stub clients are plain functions), exceptions
as the inductive PyExc, and each generate_content method returns, besides
its result, the post-call instance state and the list of vendor calls it
issued, so that frame and call-shape properties are statable.
-/

/-- Boolean test that the first character list is a prefix of the second,
written out by recursion (used to model the Python substring operator). -/
def startsL : List Char → List Char → Bool
  | [], _ => true
  | _ :: _, [] => false
  | a :: as, b :: bs => (a == b) && startsL as bs

/-- Boolean substring search on character lists: some suffix of the
haystack starts with the needle. -/
def subL (n : List Char) : List Char → Bool
  | [] => n.isEmpty
  | b :: bs => startsL n (b :: bs) || subL n bs

/-- Model of the Python expression needle in haystack for strings:
case-sensitive substring containment. -/
def containsSubstr (needle haystack : String) : Bool :=
  subL needle.data haystack.data

/-- Model of a Python exception value. valueError carries an optional
cause, modelling raise ... from e. -/
inductive PyExc where
  | importError (msg : String)
  | valueError (msg : String) (cause : Option PyExc)
  | other (msg : String)

/-- Model of Python str(e): the message of the exception. -/
def PyExc.str : PyExc → String
  | .importError m => m
  | .valueError m _ => m
  | .other m => m

/-- A vendor response object as seen by response.text. -/
structure GenResponse where
  text : String

/-- A stubbed vendor model handle: maps a prompt to a response object. -/
abbrev VendorModel := String → GenResponse

/-- Embedding of GeminiProvider: the fields set by its constructor. -/
structure GeminiProvider where
  api_key : String
  model_name : String
  model : VendorModel

/-- Embedding of GeminiProvider.__init__ (provider.py lines 31-35): stores
api_key and model_name unchanged and obtains a model handle from the
vendor SDK, modelled by the oracle sdk applied to the key and model name.
No validation is performed by this layer. -/
def geminiProviderInit (sdk : String → String → VendorModel)
    (api_key model_name : String) : GeminiProvider :=
  ⟨api_key, model_name, sdk api_key model_name⟩

/-- Embedding of GeminiProvider.env_var_name (lines 37-39). -/
def GeminiProvider.env_var_name (_ : GeminiProvider) : String :=
  "GEMINI_API_KEY"

/-- Embedding of GeminiProvider.generate_content (lines 41-43): returns
response.text of the vendor call, the post-call instance state, and the
list of prompts sent to the vendor model. -/
def GeminiProvider.generate_content (p : GeminiProvider) (prompt : String) :
    String × GeminiProvider × List String :=
  ((p.model prompt).text, p, [prompt])

/-- Embedding of VertexAIProvider: the fields set by its constructor. -/
structure VertexAIProvider where
  project_id : String
  location : String
  model_name : String
  model : VendorModel

/-- The ImportError message of provider.py lines 50-53. -/
def vertexImportMsg : String :=
  "google-cloud-aiplatform is not installed. Install it with: uv add google-cloud-aiplatform"

/-- The ValueError message of provider.py lines 60-63 for an empty or
placeholder project id. -/
def invalidProjectMsg (project_id : String) : String :=
  "Invalid project_id: \x27" ++ project_id ++ "\x27. " ++
  "Please set vertex_ai_project in config.yaml or GOOGLE_CLOUD_PROJECT environment variable."

/-- The remediation ValueError message of provider.py lines 72-83, built
exactly as the source f-strings build it. -/
def vertexDeniedMsg (project_id error_msg : String) : String :=
  "Vertex AI API access denied for project \x27" ++ project_id ++ "\x27.\n\n" ++
  "This error typically means:\n" ++
  "1. Vertex AI API is not enabled - Enable it at:\n" ++
  "   https://console.cloud.google.com/apis/library/aiplatform.googleapis.com?project=" ++
  project_id ++ "\n" ++
  "2. Billing is not enabled - Ensure billing is active for this project\n" ++
  "3. Insufficient permissions - Your account needs \x27Vertex AI User\x27 role\n" ++
  "4. Wrong project ID - Verify the project ID matches your GCP project\n\n" ++
  "To enable Vertex AI API, run:\n" ++
  "  gcloud services enable aiplatform.googleapis.com --project=" ++ project_id ++ "\n\n" ++
  "Original error: " ++ error_msg

/-- Embedding of VertexAIProvider.__init__ (provider.py lines 48-84).
available models the module flag VERTEX_AI_AVAILABLE; sdkInit models the
outcome of the vertexai.init and VertexGenerativeModel calls inside the
try block (ok with a model handle, or error with the raised exception).
The checks appear in source order: SDK availability, then the
empty-or-placeholder project id check, then SDK setup with the
error-message sniffing of lines 69-84. -/
def vertexAIProviderInit (available : Bool) (project_id location model_name : String)
    (sdkInit : Except PyExc VendorModel) : Except PyExc VertexAIProvider :=
  if !available then
    .error (.importError vertexImportMsg)
  else if project_id == "" || project_id == "your-gcp-project-id" then
    .error (.valueError (invalidProjectMsg project_id) none)
  else
    match sdkInit with
    | .ok m => .ok ⟨project_id, location, model_name, m⟩
    | .error e =>
      let error_msg := e.str
      if containsSubstr "CONSUMER_INVALID" error_msg || containsSubstr "403" error_msg ||
          containsSubstr "Permission denied" error_msg then
        .error (.valueError (vertexDeniedMsg project_id error_msg) (some e))
      else
        .error e

/-- Embedding of VertexAIProvider.env_var_name (lines 86-88). -/
def VertexAIProvider.env_var_name (_ : VertexAIProvider) : String :=
  "GOOGLE_CLOUD_PROJECT"

/-- Embedding of VertexAIProvider.generate_content (lines 90-92). -/
def VertexAIProvider.generate_content (p : VertexAIProvider) (prompt : String) :
    String × VertexAIProvider × List String :=
  ((p.model prompt).text, p, [prompt])

/-- A chat message with a role and content, as in the OpenAI request. -/
structure ChatMessage where
  role : String
  content : String

/-- The chat completion request: model name and message list. -/
structure ChatRequest where
  model : String
  messages : List ChatMessage

/-- One response choice, carrying a message. -/
structure ChatChoice where
  message : ChatMessage

/-- The chat completion response: a list of choices. -/
structure ChatResponse where
  choices : List ChatChoice

/-- Embedding of OpenAIProvider: fields set by its constructor; the
vendor client handle is a stub function from request to response. -/
structure OpenAIProvider where
  api_key : String
  model_name : String
  client : ChatRequest → ChatResponse

/-- Embedding of OpenAIProvider.__init__ (provider.py lines 97-100):
stores api_key and model_name unchanged and builds a vendor client from
the key via the oracle mkClient. No validation is performed. -/
def openAIProviderInit (mkClient : String → ChatRequest → ChatResponse)
    (api_key model_name : String) : OpenAIProvider :=
  ⟨api_key, model_name, mkClient api_key⟩

/-- Embedding of OpenAIProvider.env_var_name (lines 102-104). -/
def OpenAIProvider.env_var_name (_ : OpenAIProvider) : String :=
  "OPENAI_API_KEY"

/-- Embedding of OpenAIProvider.generate_content (lines 106-111): builds
the single-message request of line 109, issues it once, and returns the
first choice message content (none models the IndexError when the choice
list is empty), the post-call state, and the list of issued requests. -/
def OpenAIProvider.generate_content (p : OpenAIProvider) (prompt : String) :
    Option String × OpenAIProvider × List ChatRequest :=
  let req : ChatRequest := ⟨p.model_name, [⟨"user", prompt⟩]⟩
  let response := p.client req
  (match response.choices with
    | c :: _ => some c.message.content
    | [] => none,
   p, [req])

/-- C1: if the Vertex AI SDK setup step fails with an exception whose
message contains 403, CONSUMER_INVALID, or Permission denied, the
constructor raises the remediation ValueError of lines 72-83 whose cause
is the original exception. -/
theorem vertex_denied_wrapped (pid loc mn : String) (e : PyExc)
    (hpid : (pid == "" || pid == "your-gcp-project-id") = false)
    (hsig : containsSubstr "403" e.str = true ∨ containsSubstr "CONSUMER_INVALID" e.str = true ∨
      containsSubstr "Permission denied" e.str = true) :
    vertexAIProviderInit true pid loc mn (.error e) =
      .error (.valueError (vertexDeniedMsg pid e.str) (some e)) := by
  rcases hsig with h | h | h <;> simp [vertexAIProviderInit, hpid, h]

/-- C1 witness: a concrete denied setup failure is wrapped with the
original exception as cause. -/
theorem vertex_denied_wrapped_witness :
    vertexAIProviderInit true "my-project" "us-central1" "gemini-pro"
        (.error (.other "403 forbidden")) =
      .error (.valueError (vertexDeniedMsg "my-project" "403 forbidden")
        (some (.other "403 forbidden"))) :=
  vertex_denied_wrapped "my-project" "us-central1" "gemini-pro" (.other "403 forbidden")
    rfl (.inl rfl)

/-- C2 counterexample: the message API not enabled contains the claimed
signature API not enabled, yet the constructor propagates the original
exception unchanged rather than wrapping it in the remediation
ValueError, because the code only matches CONSUMER_INVALID, 403 and
Permission denied. -/
theorem vertex_signature_counterexample :
    containsSubstr "API not enabled" (PyExc.other "API not enabled").str = true ∧
    vertexAIProviderInit true "my-project" "us-central1" "gemini-pro"
        (.error (.other "API not enabled")) =
      .error (.other "API not enabled") ∧
    vertexAIProviderInit true "my-project" "us-central1" "gemini-pro"
        (.error (.other "API not enabled")) ≠
      .error (.valueError (vertexDeniedMsg "my-project" "API not enabled")
        (some (.other "API not enabled"))) := by
  refine ⟨rfl, rfl, ?_⟩
  rw [show vertexAIProviderInit true "my-project" "us-central1" "gemini-pro"
      (.error (.other "API not enabled")) = .error (.other "API not enabled") from rfl]
  simp

/-- C2 amended: the set of error-text signatures that trigger wrapping is
exactly CONSUMER_INVALID, 403 and Permission denied, matched
case-sensitively: a setup failure whose message contains one of them is
wrapped in the remediation ValueError with the original as cause, and one
containing none of them propagates unchanged. -/
theorem vertex_signature_characterization (pid loc mn : String) (e : PyExc)
    (hpid : (pid == "" || pid == "your-gcp-project-id") = false) :
    vertexAIProviderInit true pid loc mn (.error e) =
      if containsSubstr "CONSUMER_INVALID" e.str || containsSubstr "403" e.str ||
          containsSubstr "Permission denied" e.str then
        .error (.valueError (vertexDeniedMsg pid e.str) (some e))
      else
        .error e := by
  simp only [vertexAIProviderInit, Bool.not_true, Bool.false_eq_true, if_false, hpid]

/-- C2 amended witness: one wrapped and one pass-through instance of the
characterization at concrete inputs. -/
theorem vertex_signature_characterization_witness :
    (vertexAIProviderInit true "my-project" "us-central1" "gemini-pro"
        (.error (.other "CONSUMER_INVALID: consumer suspended")) =
      if containsSubstr "CONSUMER_INVALID" (PyExc.other "CONSUMER_INVALID: consumer suspended").str ||
          containsSubstr "403" (PyExc.other "CONSUMER_INVALID: consumer suspended").str ||
          containsSubstr "Permission denied" (PyExc.other "CONSUMER_INVALID: consumer suspended").str then
        .error (.valueError (vertexDeniedMsg "my-project" "CONSUMER_INVALID: consumer suspended")
          (some (.other "CONSUMER_INVALID: consumer suspended")))
      else
        .error (.other "CONSUMER_INVALID: consumer suspended")) ∧
    (vertexAIProviderInit true "my-project" "us-central1" "gemini-pro"
        (.error (.other "network timeout")) =
      if containsSubstr "CONSUMER_INVALID" (PyExc.other "network timeout").str ||
          containsSubstr "403" (PyExc.other "network timeout").str ||
          containsSubstr "Permission denied" (PyExc.other "network timeout").str then
        .error (.valueError (vertexDeniedMsg "my-project" "network timeout")
          (some (.other "network timeout")))
      else
        .error (.other "network timeout")) :=
  ⟨vertex_signature_characterization "my-project" "us-central1" "gemini-pro"
      (.other "CONSUMER_INVALID: consumer suspended") rfl,
    vertex_signature_characterization "my-project" "us-central1" "gemini-pro"
      (.other "network timeout") rfl⟩

/-- C3: with the SDK available, constructing with project id equal to the
empty string or to the placeholder your-gcp-project-id raises the
ValueError naming the offending value, for every SDK setup outcome, so
before any SDK call is consulted. -/
theorem vertex_placeholder_rejected :
    ∀ (loc mn : String) (o : Except PyExc VendorModel),
      vertexAIProviderInit true "" loc mn o =
        .error (.valueError (invalidProjectMsg "") none) ∧
      vertexAIProviderInit true "your-gcp-project-id" loc mn o =
        .error (.valueError (invalidProjectMsg "your-gcp-project-id") none) ∧
      containsSubstr "your-gcp-project-id" (invalidProjectMsg "your-gcp-project-id") = true :=
  fun _ _ _ => ⟨rfl, rfl, rfl⟩

/-- C4: with the SDK unavailable, construction raises the ImportError
naming the missing package, for every project id, location, model name
and SDK setup outcome, so before any validation or SDK access. -/
theorem vertex_missing_sdk :
    ∀ (pid loc mn : String) (o : Except PyExc VendorModel),
      vertexAIProviderInit false pid loc mn o = .error (.importError vertexImportMsg) ∧
      containsSubstr "google-cloud-aiplatform" vertexImportMsg = true ∧
      containsSubstr "uv add google-cloud-aiplatform" vertexImportMsg = true :=
  fun _ _ _ _ => ⟨rfl, rfl, rfl⟩

/-- C5: a setup failure whose message contains none of the three
recognized signatures propagates to the caller unchanged, not wrapped. -/
theorem vertex_unrecognized_propagates (pid loc mn : String) (e : PyExc)
    (hpid : (pid == "" || pid == "your-gcp-project-id") = false)
    (h1 : containsSubstr "CONSUMER_INVALID" e.str = false)
    (h2 : containsSubstr "403" e.str = false)
    (h3 : containsSubstr "Permission denied" e.str = false) :
    vertexAIProviderInit true pid loc mn (.error e) = .error e := by
  simp [vertexAIProviderInit, hpid, h1, h2, h3]

/-- C5 witness: a concrete unrelated setup failure passes through
unchanged. -/
theorem vertex_unrecognized_propagates_witness :
    vertexAIProviderInit true "my-project" "us-central1" "gemini-pro"
        (.error (.other "network timeout")) =
      .error (.other "network timeout") :=
  vertex_unrecognized_propagates "my-project" "us-central1" "gemini-pro"
    (.other "network timeout") rfl rfl rfl rfl

/-- C6: for every provider variant and every prompt, generate_content
sends the prompt to the stubbed vendor client unmodified (the vendor call
trace is exactly the given prompt) and returns exactly the text or
content field of the response the stub produces. -/
theorem generate_content_roundtrip :
    ∀ (ak mn pid loc prompt roleS txt : String) (f : VendorModel) (rest : List ChatChoice),
      ((GeminiProvider.mk ak mn f).generate_content prompt).1 = (f prompt).text ∧
      ((GeminiProvider.mk ak mn f).generate_content prompt).2.2 = [prompt] ∧
      ((VertexAIProvider.mk pid loc mn f).generate_content prompt).1 = (f prompt).text ∧
      ((VertexAIProvider.mk pid loc mn f).generate_content prompt).2.2 = [prompt] ∧
      ((OpenAIProvider.mk ak mn (fun _ => ⟨⟨⟨roleS, txt⟩⟩ :: rest⟩)).generate_content prompt).1 =
        some txt ∧
      ((OpenAIProvider.mk ak mn (fun _ => ⟨⟨⟨roleS, txt⟩⟩ :: rest⟩)).generate_content prompt).2.2 =
        [⟨mn, [⟨"user", prompt⟩]⟩] :=
  fun _ _ _ _ _ _ _ _ _ => ⟨rfl, rfl, rfl, rfl, rfl, rfl⟩

/-- C7: generate_content of the OpenAI provider issues exactly one chat
completion request, whose message list is the single user message with
the prompt as content and no system message, using the configured model
name, and returns the first choice message content of the response the
client gives to exactly that request. -/
theorem openai_single_user_request (p : OpenAIProvider) (prompt : String)
    (c : ChatChoice) (rest : List ChatChoice)
    (h : (p.client ⟨p.model_name, [⟨"user", prompt⟩]⟩).choices = c :: rest) :
    (p.generate_content prompt).2.2 = [⟨p.model_name, [⟨"user", prompt⟩]⟩] ∧
    (∀ r ∈ (p.generate_content prompt).2.2,
      r.model = p.model_name ∧ r.messages = [⟨"user", prompt⟩] ∧
      ∀ m ∈ r.messages, m.role = "user") ∧
    (p.generate_content prompt).1 = some c.message.content := by
  refine ⟨rfl, ?_, ?_⟩
  · intro r hr
    simp only [OpenAIProvider.generate_content, List.mem_singleton] at hr
    subst hr
    exact ⟨rfl, rfl, by intro m hm; simp only [List.mem_singleton] at hm; subst hm; rfl⟩
  · simp only [OpenAIProvider.generate_content, h]

/-- C7 witness: the request and result shape at a concrete provider whose
stub client returns a fixed one-choice response. -/
theorem openai_single_user_request_witness :
    ((openAIProviderInit (fun _ => fun _ => ⟨[⟨⟨"assistant", "ok"⟩⟩]⟩) "key" "gpt-4").generate_content
        "hello").2.2 =
      [⟨(openAIProviderInit (fun _ => fun _ => ⟨[⟨⟨"assistant", "ok"⟩⟩]⟩) "key" "gpt-4").model_name,
        [⟨"user", "hello"⟩]⟩] ∧
    (∀ r ∈ ((openAIProviderInit (fun _ => fun _ => ⟨[⟨⟨"assistant", "ok"⟩⟩]⟩) "key" "gpt-4").generate_content
        "hello").2.2,
      r.model = (openAIProviderInit (fun _ => fun _ => ⟨[⟨⟨"assistant", "ok"⟩⟩]⟩) "key" "gpt-4").model_name ∧
      r.messages = [⟨"user", "hello"⟩] ∧ ∀ m ∈ r.messages, m.role = "user") ∧
    ((openAIProviderInit (fun _ => fun _ => ⟨[⟨⟨"assistant", "ok"⟩⟩]⟩) "key" "gpt-4").generate_content
        "hello").1 = some (ChatChoice.mk ⟨"assistant", "ok"⟩).message.content :=
  openai_single_user_request
    (openAIProviderInit (fun _ => fun _ => ⟨[⟨⟨"assistant", "ok"⟩⟩]⟩) "key" "gpt-4")
    "hello" ⟨⟨"assistant", "ok"⟩⟩ [] rfl

/-- C8: for every constructed instance of each variant, env_var_name
returns the documented constant, independent of any construction
argument or client state. -/
theorem env_var_name_constants :
    ∀ (g : GeminiProvider) (v : VertexAIProvider) (o : OpenAIProvider),
      g.env_var_name = "GEMINI_API_KEY" ∧
      v.env_var_name = "GOOGLE_CLOUD_PROJECT" ∧
      o.env_var_name = "OPENAI_API_KEY" :=
  fun _ _ _ => ⟨rfl, rfl, rfl⟩

/-- C9: generate_content of every variant leaves the instance state
unchanged: the post-call state is the original instance, so repeated
sequential calls see identical state and return identical results. -/
theorem generate_content_frame :
    ∀ (g : GeminiProvider) (v : VertexAIProvider) (o : OpenAIProvider) (prompt : String),
      (g.generate_content prompt).2.1 = g ∧
      (v.generate_content prompt).2.1 = v ∧
      (o.generate_content prompt).2.1 = o ∧
      ((g.generate_content prompt).2.1.generate_content prompt) = g.generate_content prompt ∧
      ((v.generate_content prompt).2.1.generate_content prompt) = v.generate_content prompt ∧
      ((o.generate_content prompt).2.1.generate_content prompt) = o.generate_content prompt :=
  fun _ _ _ _ => ⟨rfl, rfl, rfl, rfl, rfl, rfl⟩

/-- C10: the key-based providers perform no validation: for every pair of
strings, including empty and placeholder values, construction is total
(its type is the plain provider, no error case) and stores api_key and
model_name unchanged in the instance fields. -/
theorem key_providers_store_unvalidated :
    ∀ (sdk : String → String → VendorModel) (mkClient : String → ChatRequest → ChatResponse)
      (ak mn : String),
      (geminiProviderInit sdk ak mn).api_key = ak ∧
      (geminiProviderInit sdk ak mn).model_name = mn ∧
      (openAIProviderInit mkClient ak mn).api_key = ak ∧
      (openAIProviderInit mkClient ak mn).model_name = mn :=
  fun _ _ _ _ => ⟨rfl, rfl, rfl, rfl⟩
